import Mathlib

/-!
Verification development for the `portfolio-nxjs` repository.

The definitions below are a shallow embedding of the components and data
tables of the repository: the `CopyToClipboard` control of `Hero`
(`src/unnamed/part_007`), the `Tag` renderer (`src/unnamed/part_007`,
`src/unnamed/part_008`), the `CustomLink` component (`src/unnamed/part_006`),
and the constant data tables `Tools` (`src/unnamed/part_000`),
`projectsData` (`src/data/projectsData.js`) and `skills`
(`src/components/Skills.js`).
-/

/-! ### CopyToClipboard (Hero component, src/unnamed/part_007 lines 14-35) -/

/-- The `text` prop passed to `CopyToClipboard`: an object with `contact`
and `type` fields. -/
structure ContactText where
  contact : String
  type : String
deriving Repr, DecidableEq

/-- State of one `CopyToClipboard` instance: the `show` flag from
`useState(false)` (named `showFlag` because `show` is a Lean keyword) and
the number of scheduled, not-yet-fired `setTimeout` reset callbacks. -/
structure ClipState where
  showFlag : Bool
  pending : Nat
deriving Repr, DecidableEq

/-- Initial component state: `useState(false)` and no timer scheduled. -/
def clipInit : ClipState := ⟨false, 0⟩

/-- The delay passed to `setTimeout` in `handleClick`: 3000 ms. -/
def resetDelayMs : Nat := 3000

/-- Embedding of `handleClick`: it writes `text.contact` to the clipboard
(first component of the result), schedules a reset after `resetDelayMs`
(second component), and updates the state by `setShow(!show)` together with
one more pending timer (third component). -/
def handleClick (text : ContactText) (s : ClipState) : String × Nat × ClipState :=
  (text.contact, resetDelayMs, ⟨!s.showFlag, s.pending + 1⟩)

/-- The clipboard write in `handleClick` is fire-and-forget: the source
neither awaits the promise returned by `navigator.clipboard.writeText` nor
branches on it, so the state update is the same function of the state
whatever the write outcome `ok` is. -/
def handleClickOutcome (text : ContactText) (ok : Bool) (s : ClipState) : ClipState :=
  (handleClick text s).2.2

/-- Events of the component: an activation (click) or the expiry of one
scheduled `setTimeout` reset. -/
inductive ClipEvent where
  | click : ClipEvent
  | timeout : ClipEvent
deriving Repr, DecidableEq

/-- One step of the component: a click runs `handleClick`; a timeout expiry
runs the scheduled callback `() => setShow(false)` and consumes one pending
timer (a timeout can only fire when one is pending). -/
def clipStep (text : ContactText) (s : ClipState) : ClipEvent → ClipState
  | ClipEvent.click => (handleClick text s).2.2
  | ClipEvent.timeout => if s.pending = 0 then s else ⟨false, s.pending - 1⟩

/-- Run the component from a state through a sequence of events. -/
def clipRun (text : ContactText) (s : ClipState) (evs : List ClipEvent) : ClipState :=
  evs.foldl (clipStep text) s

/-- The `text` prop of the `CopyToClipboard` usage in `Hero`. -/
def heroText : ContactText := ⟨"ananthanandanan@gmail.com", "Email"⟩

/-- Formal statement of the claim that after every activation in every
event sequence the `show` flag is true immediately afterwards. -/
def clipAlwaysShowAfterClick : Prop :=
  ∀ (text : ContactText) (evs : List ClipEvent) (i : Nat),
    evs.get? i = some ClipEvent.click →
    (clipRun text clipInit (evs.take (i + 1))).showFlag = true

/-! ### Tag renderer and slug (src/unnamed/part_007 lines 98-112, part_008) -/

/-- Replace a space character by a hyphen, leaving all others unchanged. -/
def spaceHyphen (c : Char) : Char := if c = ' ' then '-' else c

/-- Modelled from the spec: the helper `kebabCase`, imported from
`@/lib/utils/kebabCase` and not present among the sources, converts a
display string into a URL-safe slug: the lowercase form of the string with
spaces replaced by hyphens. -/
def kebabCase (s : String) : String := ⟨(s.data.map Char.toLower).map spaceHyphen⟩

/-- The rendered output of the `Tag` component: the link target and the
displayed text. -/
structure TagRender where
  href : String
  display : String
deriving Repr, DecidableEq

/-- Embedding of the `Tag` component: links to `/tags/${kebabCase(text)}`
and displays `text.split(' ').join('-')`. -/
def Tag (text : String) : TagRender :=
  { href := "/tags/" ++ kebabCase text
    display := String.intercalate "-" (text.splitOn " ") }

/-! ### CustomLink (src/unnamed/part_006) -/

/-- Embedding of JavaScript `String.prototype.startsWith` on an optional
string: `href && href.startsWith(p)` is false when `href` is absent. -/
def jsStartsWith (href : Option String) (p : String) : Bool :=
  match href with
  | none => false
  | some h => p.data.isPrefixOf h.data

/-- JavaScript falsiness of the `children` prop, modelled on optional
strings: absent (`undefined`/`null`) and the empty string are falsy. -/
def jsFalsy : Option String → Bool
  | none => true
  | some s => s.isEmpty

/-- The rendered output of `CustomLink`: nothing (`null`), an internal
next/link `Link` wrapping an anchor, or a plain anchor with its `href`,
`target` and `rel` attributes. -/
inductive LinkRender where
  | nothing : LinkRender
  | nextLink (href : String) (child : String) : LinkRender
  | anchor (href : Option String) (target : Option String) (rel : Option String)
      (child : String) : LinkRender
deriving Repr, DecidableEq

/-- Embedding of the `CustomLink` component: computes `isInternalLink` and
`isAnchorLink`, returns `null` for falsy `children`, then renders an
internal `Link`, a plain in-page anchor, or an external anchor with
`target="_blank"` and `rel="noopener noreferrer"`, in that order. -/
def CustomLink (href : Option String) (children : Option String) : LinkRender :=
  let isInternalLink := jsStartsWith href "/"
  let isAnchorLink := jsStartsWith href "#"
  if jsFalsy children then LinkRender.nothing
  else if isInternalLink then LinkRender.nextLink (href.getD "") (children.getD "")
  else if isAnchorLink then LinkRender.anchor href none none (children.getD "")
  else LinkRender.anchor href (some "_blank") (some "noopener noreferrer") (children.getD "")

/-! ### Data tables (src/unnamed/part_000, src/data/projectsData.js, src/components/Skills.js) -/

/-- One entry of the `Tools` table. -/
structure Tool where
  id : String
  category : List String
  link : String
  labels : List String
  name : String
  description : String
deriving Repr, DecidableEq

/-- The `Tools` table of `src/unnamed/part_000`. -/
def Tools : List Tool :=
  [ { id := "vscode", category := ["mac"], link := "https://code.visualstudio.com/",
      labels := ["Editor"], name := "Visual Studio Code",
      description := "A lightweight code editor with plenty of plugins." },
    { id := "discord", category := ["mac", "ios", "web"], link := "https://discord.com",
      labels := ["Voice Chat"], name := "Discord",
      description := "A voice chat app." },
    { id := "appcleaner", category := ["mac"], link := "https://freemacsoft.net/appcleaner/",
      labels := ["Utility"], name := "AppCleaner",
      description := "Uninstalls all the files associated with an app." },
    { id := "postman", category := ["mac"], link := "https://www.getpostman.com/",
      labels := ["API Testing"], name := "Postman",
      description := "A tool for testing APIs." },
    { id := "stackoverflow", category := ["web"], link := "https://stackoverflow.com/",
      labels := ["Questions"], name := "Stack Overflow",
      description := "C\x27mon, we all have questions." },
    { id := "notion", category := ["web", "linux", "mac"], link := "https://www.notion.so",
      labels := ["Organiser"], name := "Notion",
      description := "workspace for everything" },
    { id := "trello", category := ["web"], link := "https://www.trello.com",
      labels := ["Project Board"], name := "Trello",
      description := "Manage projects with team" } ]

/-- One entry of the `projectsData` table. -/
structure Project where
  title : String
  description : String
  imgSrc : String
  href : String
  tools : List String
deriving Repr, DecidableEq

/-- The `projectsData` table of `src/data/projectsData.js`. -/
def projectsData : List Project :=
  [ { title := "lazzzy-space",
      description := "A web app that provides teams to collaborate academically. It is a platform for students to share their ideas and projects with each other.",
      imgSrc := "/static/images/projectCards/wavy-website.png",
      href := "https://github.com/Akshay3960/lazzzy-space",
      tools := ["React", "Node", "MongoDB", "Express", "Redux", "JWT"] },
    { title := "NaWaB bot",
      description := "This bot is a content curator for the topics related to the networks. Made with python and twitter API, it is the best solution to be updated in the latest technologies, \n    developements and discussion of networks on twitter.",
      imgSrc := "/static/images/projectCards/twitter-network.png",
      href := "https://github.com/Team-SYNACKd/NaWaB",
      tools := ["Python", "Twitter API", "Telegram API"] },
    { title := "CMS",
      description := "Club Management System (CMS) is django-based web-app which lays framework for the amfoss website, the amfoss webapp, and the amfoss app.",
      imgSrc := "/static/images/projectCards/cms.png",
      href := "https://gitlab.com/amfoss/amfoss/cms",
      tools := ["Django", "Python", "GraphQL+JWT", "SQLite3"] },
    { title := "passman",
      description := "passman is a password manager for commandline written in Javascript",
      imgSrc := "/static/images/projectCards/passman.png",
      href := "https://github.com/ananthanandanan/passman",
      tools := ["javascript"] },
    { title := "Umai",
      description := "Umai is a hotel management system build using java with postgresql as the database system.",
      imgSrc := "/static/images/projectCards/hotel-db.png",
      href := "https://github.com/ananthanandanan/Hotel-DB",
      tools := ["Java", "JavaFX", "Postgres"] },
    { title := "Nav-FT",
      description := "NAV-FT contains some of the features that we can use to speed up the process of vehicle fitness testing.",
      imgSrc := "/static/images/projectCards/nav-ft.png",
      href := "https://github.com/Fireboltz/NAV-FT",
      tools := ["Flutter", "Firebase", "Python"] } ]

/-- One entry of the `skills` table: a name and the identifier of the icon
component used as its `logo`. -/
structure Skill where
  name : String
  logo : String
deriving Repr, DecidableEq

/-- The `skills` table of `src/components/Skills.js`. -/
def skills : List Skill :=
  [ ⟨"Python", "SiPython"⟩,
    ⟨"Django", "SiDjango"⟩,
    ⟨"TypeScript", "SiTypescript"⟩,
    ⟨"Node.js", "SiNodedotjs"⟩,
    ⟨"Git", "SiGit"⟩,
    ⟨"Docker", "SiDocker"⟩,
    ⟨"Linux", "SiLinux"⟩,
    ⟨"Nextjs", "SiNextdotjs"⟩,
    ⟨"PostgreSQL", "SiPostgresql"⟩,
    ⟨"MongoDB", "SiMongodb"⟩,
    ⟨"FastAPI", "SiFastapi"⟩,
    ⟨"Celery", "SiCelery"⟩,
    ⟨"RabbitMQ", "SiRabbitmq"⟩,
    ⟨"MinIO", "SiMinio"⟩,
    ⟨"LangChain", "SiLangchain"⟩,
    ⟨"Tortoise ORM", "GiTortoise"⟩ ]

/-- The module-level store holding the three constant tables. -/
structure DataTables where
  tools : List Tool
  projects : List Project
  skillList : List Skill
deriving Repr, DecidableEq

/-- The store as initialised at module load, from the source literals. -/
def initTables : DataTables := ⟨Tools, projectsData, skills⟩

/-- One rendered card of the `Skills` component: `title={skill.name}`,
`key={skill.name}`, the `skill.logo` icon, and the `skill.name` label. -/
structure SkillCard where
  title : String
  key : String
  logo : String
  label : String
deriving Repr, DecidableEq

/-- Embedding of the `Skills` component body: it maps over the `skills`
table producing one card per entry and performs no assignment to the table
or its entries. -/
def SkillsRender (d : DataTables) : List SkillCard × DataTables :=
  (d.skillList.map fun sk => ⟨sk.name, sk.name, sk.logo, sk.name⟩, d)

/-- The operations the program performs on the tables: the `Skills`
component render (from the source), and the reads of the `Tools` and
`projectsData` tables by their consuming pages. The consuming pages are
not among the sources; modelled from the spec: the tables are only
rendered, never mutated, persisted or concurrently accessed. -/
inductive TableOp where
  | renderSkills : TableOp
  | readTools : TableOp
  | readProjects : TableOp
deriving Repr, DecidableEq

/-- Effect of one program operation on the table store. -/
def applyOp (d : DataTables) : TableOp → DataTables
  | TableOp.renderSkills => (SkillsRender d).2
  | TableOp.readTools => d
  | TableOp.readProjects => d

/-! ### Character-level lemmas about `Char.toLower` -/

theorem char_toNat_ofNat_valid (n : Nat) (h : n.isValidChar) : (Char.ofNat n).toNat = n := by
  unfold Char.ofNat
  rw [dif_pos h]
  rfl

theorem char_toNat_inj {a b : Char} (h : a.toNat = b.toNat) : a = b :=
  Char.eq_of_val_eq (UInt32.toNat.inj h)

theorem toLower_toNat (c : Char) :
    c.toLower.toNat = if c.toNat ≥ 65 ∧ c.toNat ≤ 90 then c.toNat + 32 else c.toNat := by
  simp only [Char.toLower]
  by_cases h : c.toNat ≥ 65 ∧ c.toNat ≤ 90
  · rw [if_pos h, if_pos h]
    exact char_toNat_ofNat_valid _ (Or.inl (by omega))
  · rw [if_neg h, if_neg h]

theorem toLower_idem (c : Char) : c.toLower.toLower = c.toLower := by
  apply char_toNat_inj
  rw [toLower_toNat, toLower_toNat]
  split_ifs <;> omega

theorem toLower_ne_space {c : Char} (h : c ≠ ' ') : c.toLower ≠ ' ' := by
  intro he
  apply h
  apply char_toNat_inj
  have h2 := congrArg Char.toNat he
  rw [toLower_toNat] at h2
  have h3 : Char.toNat ' ' = 32 := rfl
  rw [h3] at h2
  rw [h3]
  split_ifs at h2 <;> omega

theorem slugChar_idem (c : Char) :
    spaceHyphen (Char.toLower (spaceHyphen (Char.toLower c))) = spaceHyphen (Char.toLower c) := by
  by_cases hc : c = ' '
  · subst hc
    decide
  · have h1 : Char.toLower c ≠ ' ' := toLower_ne_space hc
    have e1 : spaceHyphen c.toLower = c.toLower := if_neg h1
    rw [e1, toLower_idem, e1]

theorem kebab_data_idem (l : List Char) :
    ((((l.map Char.toLower).map spaceHyphen).map Char.toLower).map spaceHyphen) =
      (l.map Char.toLower).map spaceHyphen := by
  induction l with
  | nil => rfl
  | cons a l ih =>
    simp only [List.map_cons]
    rw [slugChar_idem a]
    exact congrArg _ ih

theorem clipRun_no_click (text : ContactText) (evs : List ClipEvent)
    (h : ClipEvent.click ∉ evs) : clipRun text clipInit evs = clipInit := by
  induction evs with
  | nil => rfl
  | cons e evs ih =>
    cases e with
    | click => exact absurd (List.mem_cons_self _ _) h
    | timeout =>
      show clipRun text (clipStep text clipInit ClipEvent.timeout) evs = clipInit
      have he : clipStep text clipInit ClipEvent.timeout = clipInit := rfl
      rw [he]
      exact ih (fun hm => h (List.mem_cons_of_mem _ hm))

/-- Claim C1, counterexample: in the event sequence click-click, the second
activation occurs while the acknowledgment is showing, and immediately after
it the `show` flag is false (since `handleClick` runs `setShow(!show)`), so
the flag is not true after every activation. -/
theorem c1_counterexample_second_click : ¬ clipAlwaysShowAfterClick := by
  intro h
  have h2 := h heroText [ClipEvent.click, ClipEvent.click] 1 rfl
  exact absurd h2 (by decide)

/-- Claim C1 (amended): an activation toggles the `show` flag, so it is true
immediately after an activation made while the acknowledgment is not
showing, but false after an activation made while it is showing; the reset
scheduled by the activation uses the fixed 3000 ms delay, and when a
scheduled timeout fires the flag is false. -/
theorem c1_click_toggles_and_timeout_clears (text : ContactText) (s : ClipState) :
    (clipStep text s ClipEvent.click).showFlag = !s.showFlag ∧
    (handleClick text s).2.1 = 3000 ∧
    (clipStep text s ClipEvent.timeout).showFlag =
      (if s.pending = 0 then s.showFlag else false) := by
  refine ⟨rfl, rfl, ?_⟩
  show (if s.pending = 0 then s else (⟨false, s.pending - 1⟩ : ClipState)).showFlag =
    (if s.pending = 0 then s.showFlag else false)
  by_cases h : s.pending = 0
  · rw [if_pos h, if_pos h]
  · rw [if_neg h, if_neg h]

/-- Claim C4: in every state reachable from the initial state by activation
and timeout-expiry steps, the `show` flag is true only if at least one
activation occurred in the event sequence. -/
theorem c4_show_requires_prior_click (text : ContactText) (evs : List ClipEvent)
    (h : (clipRun text clipInit evs).showFlag = true) : ClipEvent.click ∈ evs := by
  by_contra hmem
  rw [clipRun_no_click text evs hmem] at h
  exact absurd h (by decide)

/-- Witness for C4 at the one-click event sequence. -/
theorem c4_witness : ClipEvent.click ∈ [ClipEvent.click] :=
  c4_show_requires_prior_click heroText [ClipEvent.click] rfl

/-- Claim C5: on every activation the string written to the clipboard in the
`Hero` usage is the configured `text.contact` value
`ananthanandanan@gmail.com`, identical on every activation and independent
of the component state. -/
theorem c5_clipboard_writes_fixed_string (s t : ClipState) :
    (handleClick heroText s).1 = "ananthanandanan@gmail.com" ∧
    (handleClick heroText s).1 = (handleClick heroText t).1 :=
  ⟨rfl, rfl⟩

/-- Claim C6: the activation handler performs exactly the same state update
whether the clipboard write succeeds or fails: it toggles the `show` flag
and schedules one more reset, with no error branch. -/
theorem c6_write_failure_not_handled (text : ContactText) (ok okOther : Bool) (s : ClipState) :
    handleClickOutcome text ok s = handleClickOutcome text okOther s ∧
    (handleClickOutcome text ok s).showFlag = !s.showFlag ∧
    (handleClickOutcome text ok s).pending = s.pending + 1 ∧
    handleClickOutcome text ok s = (handleClick text s).2.2 :=
  ⟨rfl, rfl, rfl, rfl⟩

/-- Claim C2: the `Tag` renderer links to the tag-listing page at the slug
of its label, and the slug is exactly the lowercased label with every space
replaced by a hyphen. -/
theorem c2_tag_link_uses_slug (text : String) :
    (Tag text).href = "/tags/" ++ kebabCase text ∧
    (kebabCase text).data = text.data.map (fun c => spaceHyphen (Char.toLower c)) := by
  refine ⟨rfl, ?_⟩
  show (text.data.map Char.toLower).map spaceHyphen =
    text.data.map (fun c => spaceHyphen (Char.toLower c))
  rw [List.map_map]
  rfl

/-- Claim C3: slug generation is deterministic (equal labels yield equal
slugs) and idempotent (slugifying an already-slugified string returns it
unchanged). -/
theorem c3_slug_deterministic_idempotent (s t : String) :
    (s = t → kebabCase s = kebabCase t) ∧ kebabCase (kebabCase s) = kebabCase s := by
  constructor
  · intro h
    rw [h]
  · exact congrArg String.mk (kebab_data_idem s.data)

/-- Witness for C3 at the label Machine Learning. -/
theorem c3_witness :
    kebabCase "Machine Learning" = kebabCase "Machine Learning" ∧
    kebabCase (kebabCase "Machine Learning") = kebabCase "Machine Learning" :=
  ⟨(c3_slug_deterministic_idempotent "Machine Learning" "Machine Learning").1 rfl,
   (c3_slug_deterministic_idempotent "Machine Learning" "Machine Learning").2⟩

/-- Claim C7: every `Tools` entry has non-empty `id`, `link` and `name`
(the `category`, `labels` and `description` fields are present by the shape
of `Tool`), every `projectsData` entry has non-empty `title` and `href`,
and every `skills` entry has a non-empty `name` and icon reference. -/
theorem c7_tables_required_fields :
    (Tools.all fun t => !t.id.isEmpty && !t.link.isEmpty && !t.name.isEmpty) = true ∧
    (projectsData.all fun p => !p.title.isEmpty && !p.href.isEmpty) = true ∧
    (skills.all fun sk => !sk.name.isEmpty && !sk.logo.isEmpty) = true :=
  ⟨rfl, rfl, rfl⟩

/-- Claim C8: no operation of the program mutates the tables: every
sequence of table operations leaves the store at its load-time value, and
the `Skills` render read observes exactly the values written in the source. -/
theorem c8_tables_never_mutated (ops : List TableOp) :
    ops.foldl applyOp initTables = initTables ∧
    (SkillsRender (ops.foldl applyOp initTables)).1 =
      skills.map (fun sk => ⟨sk.name, sk.name, sk.logo, sk.name⟩) := by
  have h2 : ops.foldl applyOp initTables = initTables := by
    induction ops with
    | nil => rfl
    | cons o os ih =>
      show os.foldl applyOp (applyOp initTables o) = initTables
      have ha : applyOp initTables o = initTables := by cases o <;> rfl
      rw [ha]
      exact ih
  refine ⟨h2, ?_⟩
  rw [h2]
  rfl

/-- Claim C9: `CustomLink` renders nothing exactly when its `children` prop
is absent or falsy, for every `href`; an anchor is produced only when
`children` is provided. -/
theorem c9_customLink_null_iff_falsy_children (href children : Option String) :
    CustomLink href children = LinkRender.nothing ↔ jsFalsy children = true := by
  by_cases h : jsFalsy children = true
  · simp [CustomLink, h]
  · simp only [CustomLink]
    rw [if_neg h]
    constructor
    · intro he
      by_cases h1 : jsStartsWith href "/" = true
      · rw [if_pos h1] at he
        exact LinkRender.noConfusion he
      · rw [if_neg h1] at he
        by_cases h2 : jsStartsWith href "#" = true
        · rw [if_pos h2] at he
          exact LinkRender.noConfusion he
        · rw [if_neg h2] at he
          exact LinkRender.noConfusion he
    · intro he
      exact absurd he h

/-- Claim C10: for a present `href` and provided non-falsy `children`,
`CustomLink` classifies the `href` into exactly one of three ordered cases:
leading slash renders an internal `Link`; otherwise a leading hash renders
a plain anchor without `target` or `rel`; every other `href` renders an
anchor with `target="_blank"` and `rel="noopener noreferrer"`. -/
theorem c10_customLink_classification (h : String) (children : Option String) (c : String)
    (hc : children = some c) (hne : c.isEmpty = false) :
    (jsStartsWith (some h) "/" = true →
      CustomLink (some h) children = LinkRender.nextLink h c) ∧
    (jsStartsWith (some h) "/" = false → jsStartsWith (some h) "#" = true →
      CustomLink (some h) children = LinkRender.anchor (some h) none none c) ∧
    (jsStartsWith (some h) "/" = false → jsStartsWith (some h) "#" = false →
      CustomLink (some h) children =
        LinkRender.anchor (some h) (some "_blank") (some "noopener noreferrer") c) := by
  subst hc
  refine ⟨?_, ?_, ?_⟩
  · intro h1
    simp [CustomLink, jsFalsy, hne, h1]
  · intro h1 h2
    simp [CustomLink, jsFalsy, hne, h1, h2]
  · intro h1 h2
    simp [CustomLink, jsFalsy, hne, h1, h2]

/-- Witness for C10 at an external URL with provided children. -/
theorem c10_witness :
    CustomLink (some "https://github.com") (some "x") =
      LinkRender.anchor (some "https://github.com") (some "_blank")
        (some "noopener noreferrer") "x" :=
  (c10_customLink_classification "https://github.com" (some "x") "x" rfl rfl).2.2
    (by decide) (by decide)
